import Mathlib

/-!
Verification of the dagit UI fragment: the deterministic label-coloring
utility (`getColorForString` / `selectStyle`), the status-label and badge
components, and the generated GraphQL fragment type declarations.
-/

namespace Dagit

/-- Modelled from the spec: a palette entry is a pair of foreground and
background color tokens (spec section 3: "each a pair of foreground/background
color tokens"). The body of the real `getColorForString` utility is not part
of the provided sources (only its caller, the Badge component, is). -/
structure StyleEntry where
  fg : String
  bg : String
deriving DecidableEq, Repr

/-- Modelled from the spec: the fixed, ordered, build-time palette of N style
entries (spec section 3). The concrete entries are representative color-token
pairs; the spec fixes only that the palette is a finite ordered sequence,
immutable for the process lifetime. -/
def palette : List StyleEntry :=
  [ ⟨"text-red-700", "bg-red-100"⟩
  , ⟨"text-green-700", "bg-green-100"⟩
  , ⟨"text-blue-700", "bg-blue-100"⟩
  , ⟨"text-yellow-700", "bg-yellow-100"⟩
  , ⟨"text-indigo-700", "bg-indigo-100"⟩
  , ⟨"text-purple-700", "bg-purple-100"⟩
  , ⟨"text-pink-700", "bg-pink-100"⟩
  , ⟨"text-gray-700", "bg-gray-100"⟩ ]

/-- Modelled from the spec: the deterministic numeric digest of the input
string, "a simple polynomial/rolling character-code accumulation" (spec
section 4.1), which is stable and order-sensitive. -/
def digest (s : String) : Nat :=
  s.data.foldl (fun acc c => acc * 31 + c.toNat) 0

/-- Modelled from the spec: `selectStyle(input: string) -> StyleEntry`
(spec section 4.1): reduce the digest modulo the palette length N to select
an index into the fixed palette. -/
def selectStyle (s : String) : StyleEntry :=
  palette.get ⟨digest s % palette.length, Nat.mod_lt _ (by decide)⟩

/-- Modelled from the spec: the string form of the selected style, as consumed
by the Badge component through string interpolation of the class list. -/
def getColorForString (s : String) : String :=
  (selectStyle s).fg ++ " " ++ (selectStyle s).bg

/-- Modelled from the spec: the guarded form of the selector used to state the
configuration precondition of spec section 7: an empty palette (N = 0) is a
precondition violation; under N >= 1 the modulo reduction is well-defined and
the lookup is in bounds, so the failure branch is never taken. -/
def selectStyleChecked (pal : List StyleEntry) (s : String) : Option StyleEntry :=
  if h : 0 < pal.length then
    some (pal.get ⟨digest s % pal.length, Nat.mod_lt _ h⟩)
  else
    none

/-- Modelled from the spec: the fail-fast startup validation of the palette
configuration (spec section 7: "fail fast at startup, not at call time"). -/
def validatePalette (pal : List StyleEntry) : Bool :=
  decide (1 ≤ pal.length)

/-- The 26 single lowercase letters, used by the distribution property of
spec section 8. -/
def lowercaseLetters : List String :=
  ["a", "b", "c", "d", "e", "f", "g", "h", "i", "j", "k", "l", "m",
   "n", "o", "p", "q", "r", "s", "t", "u", "v", "w", "x", "y", "z"]

/-- An inline piece of rendered markup: either bare text, or a span with a
class and a text content, as in the status-label and badge components. -/
inductive Inline where
  | text (s : String)
  | span (cls : String) (content : String)
deriving DecidableEq, Repr

/-- A rendered block element: tag name, class attribute, inline children.
Every component in the sources renders exactly one such element. -/
structure Block where
  tag : String
  cls : String
  children : List Inline
deriving DecidableEq, Repr

/-- The text a user sees: inline children concatenated, skipping spans whose
class is "hidden". -/
def visibleText (b : Block) : String :=
  (b.children.map fun i =>
    match i with
    | Inline.text s => s
    | Inline.span c s => if c = "hidden" then "" else s).foldl (· ++ ·) ""

/-- The constant class list of the Badge span, before the color classes. -/
def badgeBaseClasses : String :=
  "inline-flex items-center px-2.5 py-0.5 rounded-md text-sm font-medium "

/-- The Badge component: a span whose class appends the result of
`getColorForString text` to a fixed class list, containing the text. -/
def Badge (text : String) : Block :=
  { tag := "span"
  , cls := badgeBaseClasses ++ getColorForString text
  , children := [Inline.text text] }

/-- The Experimental status label component: renders a div of class
"experimental-tag" containing a hidden "(", the text "Experimental", and a
hidden ")". -/
def Experimental : Block :=
  { tag := "div"
  , cls := "experimental-tag"
  , children := [Inline.span "hidden" "(", Inline.text "Experimental",
                 Inline.span "hidden" ")"] }

/-- The Deprecated status label component: renders a div of class
"deprecated-tag" containing a hidden "(", the text "Deprecated", and a
hidden ")". -/
def Deprecated : Block :=
  { tag := "div"
  , cls := "deprecated-tag"
  , children := [Inline.span "hidden" "(", Inline.text "Deprecated",
                 Inline.span "hidden" ")"] }

/-- The Legacy status label component: renders a div of class "legacy-tag"
containing a hidden "(", the text "Legacy", and a hidden ")". -/
def Legacy : Block :=
  { tag := "div"
  , cls := "legacy-tag"
  , children := [Inline.span "hidden" "(", Inline.text "Legacy",
                 Inline.span "hidden" ")"] }

/-- Lowercases a string, for relating a component name to its style class. -/
def lowerName (s : String) : String :=
  String.mk (s.data.map Char.toLower)

end Dagit

namespace GeneratedTypes

/-- The type of a field in a generated interface declaration: a string, a
nullable string, a nullable number, a number, a list of strings, a nested
object type (by name), or a nullable nested object type. -/
inductive FieldTy where
  | str
  | strNull
  | num
  | numNull
  | listStr
  | nested (typeName : String)
  | nestedNull (typeName : String)
deriving DecidableEq, Repr

/-- One generated variant interface: its interface name, the list of
discriminator values its literal `__typename` field admits, and its fields
other than `__typename` (name and type, in declaration order). -/
structure VariantDecl where
  name : String
  typenames : List String
  fields : List (String × FieldTy)
deriving DecidableEq, Repr

/-- Lines 10-12 of LatestMaterializationMetadataFragment.ts: the error
variant of the runOrError union, whose `__typename` is the two-value literal
union "RunNotFoundError" | "PythonError", with no other field. -/
def runNotFoundErrorDecl : VariantDecl :=
  { name := "LatestMaterializationMetadataFragment_runOrError_RunNotFoundError"
  , typenames := ["RunNotFoundError", "PythonError"]
  , fields := [] }

/-- Lines 21-29 of LatestMaterializationMetadataFragment.ts: the Run variant
of the runOrError union. -/
def runDecl : VariantDecl :=
  { name := "LatestMaterializationMetadataFragment_runOrError_Run"
  , typenames := ["Run"]
  , fields :=
      [ ("id", FieldTy.str)
      , ("runId", FieldTy.str)
      , ("mode", FieldTy.str)
      , ("pipelineName", FieldTy.str)
      , ("pipelineSnapshotId", FieldTy.strNull)
      , ("repositoryOrigin", FieldTy.nestedNull
          "LatestMaterializationMetadataFragment_runOrError_Run_repositoryOrigin") ] }

/-- Line 31 of LatestMaterializationMetadataFragment.ts: the runOrError
union, in declaration order. -/
def runOrErrorVariants : List VariantDecl :=
  [runNotFoundErrorDecl, runDecl]

/-- Lines 39-43: the table-schema variant of the metadataEntries union, whose
`__typename` is the two-value literal union
"EventTableSchemaMetadataEntry" | "EventTableMetadataEntry". -/
def eventTableSchemaDecl : VariantDecl :=
  { name := "LatestMaterializationMetadataFragment_metadataEntries_EventTableSchemaMetadataEntry"
  , typenames := ["EventTableSchemaMetadataEntry", "EventTableMetadataEntry"]
  , fields := [("label", FieldTy.str), ("description", FieldTy.strNull)] }

/-- Lines 45-50: the path variant of the metadataEntries union. -/
def eventPathDecl : VariantDecl :=
  { name := "LatestMaterializationMetadataFragment_metadataEntries_EventPathMetadataEntry"
  , typenames := ["EventPathMetadataEntry"]
  , fields := [("label", FieldTy.str), ("description", FieldTy.strNull),
               ("path", FieldTy.str)] }

/-- Lines 52-57: the json variant of the metadataEntries union. -/
def eventJsonDecl : VariantDecl :=
  { name := "LatestMaterializationMetadataFragment_metadataEntries_EventJsonMetadataEntry"
  , typenames := ["EventJsonMetadataEntry"]
  , fields := [("label", FieldTy.str), ("description", FieldTy.strNull),
               ("jsonString", FieldTy.str)] }

/-- Lines 59-64: the url variant of the metadataEntries union. -/
def eventUrlDecl : VariantDecl :=
  { name := "LatestMaterializationMetadataFragment_metadataEntries_EventUrlMetadataEntry"
  , typenames := ["EventUrlMetadataEntry"]
  , fields := [("label", FieldTy.str), ("description", FieldTy.strNull),
               ("url", FieldTy.str)] }

/-- Lines 66-71: the text variant of the metadataEntries union. -/
def eventTextDecl : VariantDecl :=
  { name := "LatestMaterializationMetadataFragment_metadataEntries_EventTextMetadataEntry"
  , typenames := ["EventTextMetadataEntry"]
  , fields := [("label", FieldTy.str), ("description", FieldTy.strNull),
               ("text", FieldTy.str)] }

/-- Lines 73-78: the markdown variant of the metadataEntries union. -/
def eventMarkdownDecl : VariantDecl :=
  { name := "LatestMaterializationMetadataFragment_metadataEntries_EventMarkdownMetadataEntry"
  , typenames := ["EventMarkdownMetadataEntry"]
  , fields := [("label", FieldTy.str), ("description", FieldTy.strNull),
               ("mdStr", FieldTy.str)] }

/-- Lines 80-86: the python-artifact variant of the metadataEntries union. -/
def eventPythonArtifactDecl : VariantDecl :=
  { name := "LatestMaterializationMetadataFragment_metadataEntries_EventPythonArtifactMetadataEntry"
  , typenames := ["EventPythonArtifactMetadataEntry"]
  , fields := [("label", FieldTy.str), ("description", FieldTy.strNull),
               ("module", FieldTy.str), ("name", FieldTy.str)] }

/-- Lines 88-93: the float variant of the metadataEntries union. -/
def eventFloatDecl : VariantDecl :=
  { name := "LatestMaterializationMetadataFragment_metadataEntries_EventFloatMetadataEntry"
  , typenames := ["EventFloatMetadataEntry"]
  , fields := [("label", FieldTy.str), ("description", FieldTy.strNull),
               ("floatValue", FieldTy.numNull)] }

/-- Lines 95-101: the int variant of the metadataEntries union. -/
def eventIntDecl : VariantDecl :=
  { name := "LatestMaterializationMetadataFragment_metadataEntries_EventIntMetadataEntry"
  , typenames := ["EventIntMetadataEntry"]
  , fields := [("label", FieldTy.str), ("description", FieldTy.strNull),
               ("intValue", FieldTy.numNull), ("intRepr", FieldTy.str)] }

/-- Lines 103-108: the pipeline-run variant of the metadataEntries union. -/
def eventPipelineRunDecl : VariantDecl :=
  { name := "LatestMaterializationMetadataFragment_metadataEntries_EventPipelineRunMetadataEntry"
  , typenames := ["EventPipelineRunMetadataEntry"]
  , fields := [("label", FieldTy.str), ("description", FieldTy.strNull),
               ("runId", FieldTy.str)] }

/-- Lines 115-120: the asset variant of the metadataEntries union. -/
def eventAssetDecl : VariantDecl :=
  { name := "LatestMaterializationMetadataFragment_metadataEntries_EventAssetMetadataEntry"
  , typenames := ["EventAssetMetadataEntry"]
  , fields := [("label", FieldTy.str), ("description", FieldTy.strNull),
               ("assetKey", FieldTy.nested
                 "LatestMaterializationMetadataFragment_metadataEntries_EventAssetMetadataEntry_assetKey")] }

/-- Line 122 of LatestMaterializationMetadataFragment.ts: the metadataEntries
union, in declaration order. -/
def metadataEntriesVariants : List VariantDecl :=
  [eventTableSchemaDecl, eventPathDecl, eventJsonDecl, eventUrlDecl,
   eventTextDecl, eventMarkdownDecl, eventPythonArtifactDecl, eventFloatDecl,
   eventIntDecl, eventPipelineRunDecl, eventAssetDecl]

/-- All variant interfaces of the two discriminated unions declared in
LatestMaterializationMetadataFragment.ts. -/
def allUnionVariants : List VariantDecl :=
  runOrErrorVariants ++ metadataEntriesVariants

/-- The run-detail field names carried by the Run variant (lines 23-28). -/
def runDetailFields : List String :=
  ["id", "runId", "mode", "pipelineName", "pipelineSnapshotId",
   "repositoryOrigin"]

end GeneratedTypes

namespace Dagit

/-- Helper: every selected style is a palette member, since the index is the
digest reduced modulo the palette length. -/
theorem aux_selectStyle_mem (s : String) : selectStyle s ∈ palette :=
  List.get_mem _ _ _

/-- C1: for every input string, selectStyle returns the same palette entry on
every call: the output is a pure function of the input string only, with no
hidden state, randomness, or time dependency, so equal inputs always yield
equal outputs. -/
theorem selectStyle_deterministic (s₁ s₂ : String) (h : s₁ = s₂) :
    selectStyle s₁ = selectStyle s₂ := by
  rw [h]

/-- Witness for C1 at the concrete input "Legacy". -/
theorem selectStyle_deterministic_witness :
    ("Legacy" : String) = "Legacy" ∧ selectStyle "Legacy" = selectStyle "Legacy" :=
  ⟨rfl, selectStyle_deterministic "Legacy" "Legacy" rfl⟩

/-- C2: for every input string, selectStyle returns a member of the fixed,
finite, ordered palette, the entry at index digest s modulo the palette
length N. -/
theorem selectStyle_in_palette (s : String) :
    selectStyle s ∈ palette ∧
      selectStyle s = palette.get ⟨digest s % palette.length, Nat.mod_lt _ (by decide)⟩ :=
  ⟨aux_selectStyle_mem s, rfl⟩

/-- C3: selectStyle is total over all string inputs — every input yields a
palette entry — and in particular the empty string returns a defined,
consistent palette entry (the entry at index 0, since its digest is 0). -/
theorem selectStyle_total :
    (∀ s : String, selectStyle s ∈ palette) ∧
      selectStyle "" ∈ palette ∧
      selectStyle "" = StyleEntry.mk "text-red-700" "bg-red-100" :=
  ⟨aux_selectStyle_mem, aux_selectStyle_mem "", by decide⟩

/-- C5: with a palette of size at least 2, applying selectStyle to the 26
single lowercase letters produces at least 2 distinct palette entries. -/
theorem selectStyle_distribution (_h : 2 ≤ palette.length) :
    2 ≤ ((lowercaseLetters.map selectStyle).dedup).length := by
  decide

/-- Witness for C5: the fixed palette has length at least 2 and the 26
lowercase letters hit at least 2 distinct entries. -/
theorem selectStyle_distribution_witness :
    2 ≤ palette.length ∧ 2 ≤ ((lowercaseLetters.map selectStyle).dedup).length :=
  ⟨by decide, selectStyle_distribution (by decide)⟩

/-- C6: the digest is order-sensitive: "ab" and "ba" are permutations of the
same characters yet have different digests and map to different palette
entries. -/
theorem selectStyle_order_sensitive :
    List.Perm ("ab" : String).data ("ba" : String).data ∧
      digest "ab" ≠ digest "ba" ∧
      selectStyle "ab" ≠ selectStyle "ba" := by
  refine ⟨by decide, by decide, by decide⟩

/-- C7: an empty palette is caught by the startup validation; under the
precondition that validation passes (N at least 1), every call of the guarded
selector succeeds: the empty-palette failure branch is unreachable at call
time. -/
theorem selectStyleChecked_total_of_valid (pal : List StyleEntry)
    (h : validatePalette pal = true) (s : String) :
    ∃ e, selectStyleChecked pal s = some e := by
  have hp : 0 < pal.length := by
    have h1 : 1 ≤ pal.length := by simpa [validatePalette] using h
    omega
  refine ⟨pal.get ⟨digest s % pal.length, Nat.mod_lt _ hp⟩, ?_⟩
  unfold selectStyleChecked
  rw [dif_pos hp]

/-- Witness for C7: the fixed palette passes validation and a concrete call
succeeds. -/
theorem selectStyleChecked_total_of_valid_witness :
    validatePalette palette = true ∧
      ∃ e, selectStyleChecked palette "tag" = some e :=
  ⟨by decide, selectStyleChecked_total_of_valid palette (by decide) "tag"⟩

/-- C8: the three status label components are stateless constants, each
rendering exactly its own fixed name as visible text inside an element whose
style class is the lowercased name followed by "-tag"; the Badge component
renders its text input inside a span whose class appends
getColorForString of that input to a fixed class list. -/
theorem statusLabels_and_badge :
    (Experimental.tag = "div" ∧
       Experimental.cls = lowerName "Experimental" ++ "-tag" ∧
       visibleText Experimental = "Experimental") ∧
    (Deprecated.tag = "div" ∧
       Deprecated.cls = lowerName "Deprecated" ++ "-tag" ∧
       visibleText Deprecated = "Deprecated") ∧
    (Legacy.tag = "div" ∧
       Legacy.cls = lowerName "Legacy" ++ "-tag" ∧
       visibleText Legacy = "Legacy") ∧
    (∀ t : String,
       (Badge t).cls = badgeBaseClasses ++ getColorForString t ∧
       visibleText (Badge t) = t) := by
  refine ⟨⟨rfl, by decide, by decide⟩, ⟨rfl, by decide, by decide⟩,
    ⟨rfl, by decide, by decide⟩, fun t => ⟨rfl, ?_⟩⟩
  simp [visibleText, Badge]

end Dagit

namespace GeneratedTypes

/-- C4 counterexample: two variant interfaces each cover two discriminator
values, so it is false that no single variant interface covers more than one
of them: the runOrError error variant covers both "RunNotFoundError" and
"PythonError", and the metadataEntries table-schema variant covers both
"EventTableSchemaMetadataEntry" and "EventTableMetadataEntry". -/
theorem unions_one_typename_cex :
    runNotFoundErrorDecl ∈ runOrErrorVariants ∧
      eventTableSchemaDecl ∈ metadataEntriesVariants ∧
      runNotFoundErrorDecl.typenames.length = 2 ∧
      eventTableSchemaDecl.typenames.length = 2 := by
  decide

/-- C4 (amended): the generated types form discriminated unions — every
variant covers at least one discriminator value, the discriminator value sets
of distinct variants are pairwise disjoint, and each variant's field names
are distinct — but exactly two variants (the runOrError error variant and the
metadataEntries table-schema variant) each cover two discriminator values;
every other variant covers exactly one. -/
theorem unions_discriminated_amended :
    (∀ v ∈ allUnionVariants, 1 ≤ v.typenames.length) ∧
      (∀ v ∈ allUnionVariants,
        v.typenames.length = 1 ∨ v = runNotFoundErrorDecl ∨ v = eventTableSchemaDecl) ∧
      allUnionVariants.Pairwise (fun a b => ∀ t ∈ a.typenames, t ∉ b.typenames) ∧
      (∀ v ∈ allUnionVariants, (v.fields.map Prod.fst).Nodup) := by
  decide

/-- Witness for C4 (amended) at the concrete Run variant. -/
theorem unions_discriminated_amended_witness :
    runDecl ∈ allUnionVariants ∧ 1 ≤ runDecl.typenames.length :=
  ⟨by decide, unions_discriminated_amended.1 runDecl (by decide)⟩

/-- C9: every variant of the metadataEntries union carries a non-null string
field label and a nullable string field description, so both can be read on
any value of the union without inspecting the discriminator. -/
theorem metadataEntries_label_description :
    ∀ v ∈ metadataEntriesVariants,
      ("label", FieldTy.str) ∈ v.fields ∧
        ("description", FieldTy.strNull) ∈ v.fields := by
  decide

/-- Witness for C9 at the concrete path variant. -/
theorem metadataEntries_label_description_witness :
    eventPathDecl ∈ metadataEntriesVariants ∧
      ("label", FieldTy.str) ∈ eventPathDecl.fields ∧
      ("description", FieldTy.strNull) ∈ eventPathDecl.fields :=
  ⟨by decide, metadataEntries_label_description eventPathDecl (by decide)⟩

/-- C10: in the runOrError union, a variant whose discriminator set does not
contain "Run" carries no field besides the discriminator, the Run variant
carries exactly the run-detail fields, and each run-detail field is present
in a variant exactly when that variant's discriminator is "Run". -/
theorem runOrError_details_iff_run :
    (∀ v ∈ runOrErrorVariants, "Run" ∉ v.typenames → v.fields = []) ∧
      (∀ v ∈ runOrErrorVariants,
        "Run" ∈ v.typenames → v.fields.map Prod.fst = runDetailFields) ∧
      (∀ v ∈ runOrErrorVariants, ∀ f ∈ runDetailFields,
        ((f ∈ v.fields.map Prod.fst) ↔ "Run" ∈ v.typenames)) := by
  decide

/-- Witness for C10 at the concrete error variant. -/
theorem runOrError_details_iff_run_witness :
    runNotFoundErrorDecl ∈ runOrErrorVariants ∧
      ("Run" ∉ runNotFoundErrorDecl.typenames) ∧
      runNotFoundErrorDecl.fields = [] :=
  ⟨by decide, by decide,
    runOrError_details_iff_run.1 runNotFoundErrorDecl (by decide) (by decide)⟩

end GeneratedTypes
